import Mathlib

/-!
Shallow embedding of the phonebook REST service in src/src/main.rs: a single
contacts table behind four HTTP handlers (list, create, update, search by
phone).  The store state is the list of rows; the server clock and freshly
generated UUIDs enter each operation as explicit parameters.  UUIDs and
timestamps are modelled as natural numbers.
-/

/-- A stored row of the contacts table (struct Contact, src/src/main.rs
lines 19-27). -/
structure Contact where
  id : Nat
  first_name : String
  last_name : String
  phone : String
  created_at : Nat
  updated_at : Nat
  deriving DecidableEq, Repr

/-- The create request body (struct CreateContact, src/src/main.rs lines
29-34): all three fields required. -/
structure CreateContact where
  first_name : String
  last_name : String
  phone : String
  deriving DecidableEq, Repr

/-- The update request body (struct UpdateContact, src/src/main.rs lines
36-41): each field individually optional. -/
structure UpdateContact where
  first_name : Option String
  last_name : Option String
  phone : Option String
  deriving DecidableEq, Repr

/-- The store state: the rows of the contacts table. -/
structure DB where
  contacts : List Contact
  deriving DecidableEq, Repr

/-- The driver errors the handlers distinguish: RowNotFound (a single-row
fetch found no row) and any other database error carrying its display
message. -/
inductive SqlxError where
  | RowNotFound
  | Database (msg : String)
  deriving DecidableEq, Repr

/-- The display message of a driver error, as e.to_string() renders it. -/
def SqlxError.to_string : SqlxError → String
  | SqlxError.RowNotFound =>
      "no rows returned by a query that expected to return at least one row"
  | SqlxError.Database msg => msg

def OK : Nat := 200
def CREATED : Nat := 201
def BAD_REQUEST : Nat := 400
def NOT_FOUND : Nat := 404
def INTERNAL_SERVER_ERROR : Nat := 500

/-- The error closure at src/src/main.rs lines 81, 101, 150 and 171: every
driver error becomes HTTP 500 carrying the raw error message, unredacted. -/
def storage_err (e : SqlxError) : Nat × String :=
  (INTERNAL_SERVER_ERROR, e.to_string)

/-- The error closure at src/src/main.rs lines 117-120: RowNotFound from
the update's initial fetch becomes HTTP 404 with a plain message, anything
else HTTP 500 with the raw message. -/
def update_fetch_err (e : SqlxError) : Nat × String :=
  match e with
  | SqlxError.RowNotFound => (NOT_FOUND, "Contact not found")
  | e => (INTERNAL_SERVER_ERROR, e.to_string)

/-- Models sqlx fetch_one for a single-row SELECT with a row predicate:
the first matching row, or RowNotFound when the result set is empty. -/
def fetch_one (q : Contact → Bool) (db : DB) : Except SqlxError Contact :=
  match db.contacts.find? q with
  | some c => Except.ok c
  | none => Except.error SqlxError.RowNotFound

/-- The ORDER BY first_name, last_name comparison of the list query
(src/src/main.rs line 77): ascending lexicographic on the stored text,
first names first, last names breaking ties. -/
def contactLe (a b : Contact) : Bool :=
  decide (a.first_name < b.first_name ∨
    (a.first_name = b.first_name ∧ a.last_name ≤ b.last_name))

/-- Handler list_contacts (src/src/main.rs lines 76-82): SELECT * FROM
contacts ORDER BY first_name, last_name, answered with HTTP 200 and every
row.  The state is only read. -/
def list_contacts (db : DB) : Nat × List Contact :=
  (OK, db.contacts.mergeSort contactLe)

/-- Modelled from the spec: the migrations directory of the repository is
not under src/, so the contacts table schema comes from the spec, which
says id is unique and never reused (a primary key) and that insertion sets
both timestamps to the current server time.  The INSERT at src/src/main.rs
lines 88-99 supplies only id and the three text fields and reads the
timestamps back via RETURNING *; a duplicate generated id is a constraint
violation surfaced as an ordinary database error. -/
def insert_row (t : Nat) (newId : Nat) (p : CreateContact) (db : DB) :
    Except SqlxError (Contact × DB) :=
  if db.contacts.any (fun c => c.id == newId) then
    Except.error
      (SqlxError.Database "duplicate key value violates unique constraint")
  else
    let c : Contact :=
      { id := newId, first_name := p.first_name, last_name := p.last_name,
        phone := p.phone, created_at := t, updated_at := t }
    Except.ok (c, DB.mk (db.contacts ++ [c]))

/-- Handler create_contact (src/src/main.rs lines 84-104): insert a row
with a freshly generated UUID, map any driver error to HTTP 500 with the
raw message, answer 201 with the created row. -/
def create_contact (t : Nat) (newId : Nat) (p : CreateContact) (db : DB) :
    Except (Nat × String) (Nat × Contact) × DB :=
  match insert_row t newId p db with
  | Except.error e => (Except.error (storage_err e), db)
  | Except.ok (c, db2) => (Except.ok (CREATED, c), db2)

/-- The in-memory field overwrite of update_contact (src/src/main.rs lines
122-130) followed by the SET clause of the UPDATE statement (lines
132-142): each supplied field replaces the fetched value, unsupplied
fields keep it, and updated_at becomes NOW(). -/
def apply_update (payload : UpdateContact) (contact : Contact) (t : Nat) :
    Contact :=
  let contact :=
    { contact with
      first_name := payload.first_name.getD contact.first_name,
      last_name := payload.last_name.getD contact.last_name,
      phone := payload.phone.getD contact.phone }
  { contact with updated_at := t }

/-- Handler update_contact (src/src/main.rs lines 106-153): fetch the row
by id (404 when absent, raw 500 on other fetch errors), overwrite in
memory the fields the payload supplies, then UPDATE all three fields and
updated_at = NOW() on the row with that id, answering 200 with the row the
statement returns. -/
def update_contact (t : Nat) (id : Nat) (payload : UpdateContact) (db : DB) :
    Except (Nat × String) (Nat × Contact) × DB :=
  match fetch_one (fun c => c.id == id) db with
  | Except.error e => (Except.error (update_fetch_err e), db)
  | Except.ok contact =>
      let updated := apply_update payload contact t
      (Except.ok (OK, updated),
       DB.mk (db.contacts.map (fun c => if c.id == id then updated else c)))

/-- Handler search_contact_by_phone (src/src/main.rs lines 160-172):
SELECT * FROM contacts WHERE phone = $1, answered with HTTP 200 and every
matching row, possibly none.  The match is plain string equality on the
stored text, byte for byte. -/
def search_contact_by_phone (phone : String) (db : DB) : Nat × List Contact :=
  (OK, db.contacts.filter (fun c => c.phone == phone))

/-- One ASCII hex digit, by code point. -/
def is_hex_digit (c : Char) : Bool :=
  (48 ≤ c.toNat && c.toNat ≤ 57) || (97 ≤ c.toNat && c.toNat ≤ 102) ||
    (65 ≤ c.toNat && c.toNat ≤ 70)

/-- Numeric value of an ASCII hex digit. -/
def hex_val (c : Char) : Nat :=
  if 48 ≤ c.toNat && c.toNat ≤ 57 then c.toNat - 48
  else if 97 ≤ c.toNat && c.toNat ≤ 102 then c.toNat - 87
  else c.toNat - 55

/-- The 32-hex-digit simple UUID form, as the uuid crate parses it. -/
def parse_simple (cs : List Char) : Option Nat :=
  if cs.length == 32 && cs.all is_hex_digit then
    some (cs.foldl (fun acc c => 16 * acc + hex_val c) 0)
  else none

/-- The 36-character hyphenated 8-4-4-4-12 UUID form, as the uuid crate
parses it: hyphens at offsets 8, 13, 18 and 23, hex digits elsewhere. -/
def parse_hyphenated (cs : List Char) : Option Nat :=
  let shape := cs.length == 36 &&
    (List.range 36).all (fun i =>
      if i == 8 || i == 13 || i == 18 || i == 23 then cs.getD i ' ' == '-'
      else is_hex_digit (cs.getD i ' '))
  if shape then
    some ((cs.filter (fun c => c != '-')).foldl
      (fun acc c => 16 * acc + hex_val c) 0)
  else none

/-- Models Uuid parsing of the :id path parameter (Path(id): Path(Uuid),
src/src/main.rs line 108), following the uuid crate's try_parse: a
32-digit simple form, a 36-character hyphenated form, the hyphenated form
between braces (38 characters), or the hyphenated form after the
nine-character urn:uuid: tag (45 characters); none when the text fits no
such shape. -/
def parse_uuid (s : String) : Option Nat :=
  let cs := s.data
  if cs.length == 32 then parse_simple cs
  else if cs.length == 36 then parse_hyphenated cs
  else if cs.length == 38 && (cs.getD 0 ' ').toNat == 123 &&
      (cs.getD 37 ' ').toNat == 125 then
    parse_hyphenated ((cs.drop 1).take 36)
  else if cs.length == 45 && String.mk (cs.take 9) == "urn:uuid:" then
    parse_hyphenated (cs.drop 9)
  else none

/-- The PUT /contacts/:id route (src/src/main.rs line 64): axum
deserializes the :id path parameter as a UUID before the handler body
runs; when that fails the request is rejected with HTTP 400 and the
handler, and hence the store, is never touched. -/
def put_contact_route (t : Nat) (idText : String) (payload : UpdateContact)
    (db : DB) : Except (Nat × String) (Nat × Contact) × DB :=
  match parse_uuid idText with
  | none => (Except.error (BAD_REQUEST, "Invalid URL"), db)
  | some id => update_contact t id payload db

/-- A request to one of the four routes installed in main (src/src/main.rs
lines 62-67); no delete route exists. -/
inductive Request where
  | list
  | create (p : CreateContact)
  | update (idText : String) (p : UpdateContact)
  | search (phone : String)

/-- The store state after dispatching one request: list and search only
run SELECT statements and return the state unchanged; create and update
return the state their handlers produce. -/
def handle (t : Nat) (freshId : Nat) (req : Request) (db : DB) : DB :=
  match req with
  | Request.list => db
  | Request.create p => (create_contact t freshId p db).2
  | Request.update idText p => (put_contact_route t idText p db).2
  | Request.search _ => db

/-- The spec's data-model invariants: updated_at is at least created_at on
every row, and ids are pairwise distinct. -/
def DB.Inv (db : DB) : Prop :=
  (∀ c ∈ db.contacts, c.created_at ≤ c.updated_at) ∧
  db.contacts.Pairwise (fun a b => a.id ≠ b.id)

example :
    update_contact 5 1 (UpdateContact.mk none none (some "555-0200"))
        (DB.mk [Contact.mk 1 "Ada" "Lovelace" "555-0100" 2 2]) =
      (Except.ok (OK, Contact.mk 1 "Ada" "Lovelace" "555-0200" 2 5),
       DB.mk [Contact.mk 1 "Ada" "Lovelace" "555-0200" 2 5]) := by
  rfl

example : parse_uuid "not-a-uuid" = none := by decide

example :
    parse_uuid "00000000-0000-0000-0000-00000000002a" = some 42 := by decide

example : parse_uuid "0000000000000000000000000000002a" = some 42 := by
  decide

example :
    parse_uuid "urn:uuid:00000000-0000-0000-0000-00000000002a" = some 42 := by
  decide

example :
    parse_uuid "\x7b00000000-0000-0000-0000-00000000002a\x7d" = some 42 := by
  decide

example : parse_uuid "urn:uuid:0000000000000000000000000000002a" = none := by
  decide

theorem contactLe_trans (a b c : Contact) (hab : contactLe a b)
    (hbc : contactLe b c) : contactLe a c := by
  simp only [contactLe, decide_eq_true_eq] at *
  rcases hab with h1 | ⟨e1, l1⟩
  · rcases hbc with h2 | ⟨e2, l2⟩
    · exact Or.inl (lt_trans h1 h2)
    · exact Or.inl (lt_of_lt_of_eq h1 e2)
  · rcases hbc with h2 | ⟨e2, l2⟩
    · exact Or.inl (lt_of_eq_of_lt e1 h2)
    · exact Or.inr ⟨e1.trans e2, le_trans l1 l2⟩

theorem contactLe_total (a b : Contact) : contactLe a b || contactLe b a := by
  simp only [contactLe, Bool.or_eq_true, decide_eq_true_eq]
  rcases lt_trichotomy a.first_name b.first_name with h | h | h
  · exact Or.inl (Or.inl h)
  · rcases le_total a.last_name b.last_name with hl | hl
    · exact Or.inl (Or.inr ⟨h, hl⟩)
    · exact Or.inr (Or.inr ⟨h.symm, hl⟩)
  · exact Or.inr (Or.inl h)

/-- C1: updating an existing contact changes exactly the supplied fields
and updated_at: each supplied field takes the supplied value, each
unsupplied one keeps its prior value, id and created_at are unchanged,
updated_at moves strictly past its prior value (the clock having advanced
past the row's last write), and every other row of the store is untouched. -/
theorem update_contact_frame (t id : Nat) (p : UpdateContact) (db : DB)
    (c0 : Contact)
    (hfind : db.contacts.find? (fun c => c.id == id) = some c0)
    (ht : c0.updated_at < t) :
    update_contact t id p db =
      (Except.ok (OK, apply_update p c0 t),
       DB.mk (db.contacts.map
         (fun c => if c.id == id then apply_update p c0 t else c))) ∧
    (apply_update p c0 t).id = c0.id ∧
    (apply_update p c0 t).created_at = c0.created_at ∧
    (apply_update p c0 t).first_name = p.first_name.getD c0.first_name ∧
    (apply_update p c0 t).last_name = p.last_name.getD c0.last_name ∧
    (apply_update p c0 t).phone = p.phone.getD c0.phone ∧
    c0.updated_at < (apply_update p c0 t).updated_at := by
  refine ⟨?_, rfl, rfl, rfl, rfl, rfl, ht⟩
  unfold update_contact fetch_one
  rw [hfind]

theorem update_contact_frame_witness :
    update_contact 9 1 (UpdateContact.mk none none (some "555-0200"))
        (DB.mk [Contact.mk 1 "Ada" "Lovelace" "555-0100" 2 2]) =
      (Except.ok (OK,
         apply_update (UpdateContact.mk none none (some "555-0200"))
           (Contact.mk 1 "Ada" "Lovelace" "555-0100" 2 2) 9),
       DB.mk ((DB.mk [Contact.mk 1 "Ada" "Lovelace" "555-0100" 2 2]).contacts.map
         (fun c => if c.id == 1 then
            apply_update (UpdateContact.mk none none (some "555-0200"))
              (Contact.mk 1 "Ada" "Lovelace" "555-0100" 2 2) 9
          else c))) :=
  (update_contact_frame 9 1 (UpdateContact.mk none none (some "555-0200"))
    (DB.mk [Contact.mk 1 "Ada" "Lovelace" "555-0100" 2 2])
    (Contact.mk 1 "Ada" "Lovelace" "555-0100" 2 2) (by rfl) (by decide)).1

/-- C2: creating a contact whose generated id is fresh inserts exactly one
row carrying the payload's three fields with created_at and updated_at
both the current server time, and answers 201 with that row; on the
created row created_at equals updated_at. -/
theorem create_contact_ok (t newId : Nat) (p : CreateContact) (db : DB)
    (hfresh : ∀ c ∈ db.contacts, c.id ≠ newId) :
    create_contact t newId p db =
      (Except.ok (CREATED,
         Contact.mk newId p.first_name p.last_name p.phone t t),
       DB.mk (db.contacts ++
         [Contact.mk newId p.first_name p.last_name p.phone t t])) ∧
    (Contact.mk newId p.first_name p.last_name p.phone t t).created_at =
      (Contact.mk newId p.first_name p.last_name p.phone t t).updated_at := by
  have hany : db.contacts.any (fun c => c.id == newId) = false := by
    rw [List.any_eq_false]
    intro c hc
    simpa using hfresh c hc
  refine ⟨?_, rfl⟩
  unfold create_contact insert_row
  rw [hany]
  exact rfl

theorem create_contact_ok_witness :
    create_contact 7 42 (CreateContact.mk "Ada" "Lovelace" "555-0100")
        (DB.mk []) =
      (Except.ok (CREATED, Contact.mk 42 "Ada" "Lovelace" "555-0100" 7 7),
       DB.mk ([] ++ [Contact.mk 42 "Ada" "Lovelace" "555-0100" 7 7])) :=
  (create_contact_ok 7 42 (CreateContact.mk "Ada" "Lovelace" "555-0100")
    (DB.mk []) (by decide)).1

/-- C3: listing answers 200 with every stored contact, ordered by
first_name then last_name, ascending lexicographically on the stored
text. -/
theorem list_contacts_complete_sorted (db : DB) :
    (list_contacts db).1 = OK ∧
    (list_contacts db).2.Perm db.contacts ∧
    (list_contacts db).2.Pairwise (fun a b => contactLe a b) :=
  ⟨rfl, List.mergeSort_perm db.contacts contactLe,
   List.sorted_mergeSort contactLe_trans contactLe_total db.contacts⟩

/-- C4: searching by a phone string answers 200 with exactly the stored
contacts whose phone equals it byte for byte, and with the empty list
rather than an error when none match. -/
theorem search_contact_by_phone_exact (x : String) (db : DB) :
    (search_contact_by_phone x db).1 = OK ∧
    (∀ c, c ∈ (search_contact_by_phone x db).2 ↔
      c ∈ db.contacts ∧ c.phone = x) ∧
    ((∀ c ∈ db.contacts, c.phone ≠ x) →
      (search_contact_by_phone x db).2 = []) := by
  refine ⟨rfl, ?_, ?_⟩
  · intro c
    simp [search_contact_by_phone, List.mem_filter]
  · intro h
    simp only [search_contact_by_phone]
    rw [List.filter_eq_nil_iff]
    intro c hc
    simpa using h c hc

theorem search_contact_by_phone_exact_witness :
    (search_contact_by_phone "555-0900"
      (DB.mk [Contact.mk 1 "Ada" "Lovelace" "555-0100" 2 2])).2 = [] :=
  (search_contact_by_phone_exact "555-0900"
    (DB.mk [Contact.mk 1 "Ada" "Lovelace" "555-0100" 2 2])).2.2 (by decide)

/-- C5: an update whose target id matches no stored contact answers 404
Contact not found and leaves the store exactly as it was: no row is
created or altered. -/
theorem update_contact_missing (t id : Nat) (p : UpdateContact) (db : DB)
    (habs : ∀ c ∈ db.contacts, c.id ≠ id) :
    update_contact t id p db =
      (Except.error (NOT_FOUND, "Contact not found"), db) := by
  have hfind : db.contacts.find? (fun c => c.id == id) = none := by
    rw [List.find?_eq_none]
    intro c hc
    simpa using habs c hc
  unfold update_contact fetch_one
  rw [hfind]
  exact rfl

theorem update_contact_missing_witness :
    update_contact 9 7 (UpdateContact.mk none none none)
        (DB.mk [Contact.mk 1 "Ada" "Lovelace" "555-0100" 2 2]) =
      (Except.error (NOT_FOUND, "Contact not found"),
       DB.mk [Contact.mk 1 "Ada" "Lovelace" "555-0100" 2 2]) :=
  update_contact_missing 9 7 (UpdateContact.mk none none none)
    (DB.mk [Contact.mk 1 "Ada" "Lovelace" "555-0100" 2 2]) (by decide)

theorem update_contact_found (t id : Nat) (p : UpdateContact) (db : DB)
    (c0 : Contact)
    (hfind : db.contacts.find? (fun c => c.id == id) = some c0) :
    update_contact t id p db =
      (Except.ok (OK, apply_update p c0 t),
       DB.mk (db.contacts.map
         (fun c => if c.id == id then apply_update p c0 t else c))) := by
  unfold update_contact fetch_one
  rw [hfind]

theorem update_contact_none (t id : Nat) (p : UpdateContact) (db : DB)
    (hfind : db.contacts.find? (fun c => c.id == id) = none) :
    update_contact t id p db =
      (Except.error (NOT_FOUND, "Contact not found"), db) := by
  unfold update_contact fetch_one
  rw [hfind]
  exact rfl

theorem create_contact_fresh (t newId : Nat) (p : CreateContact) (db : DB)
    (hany : db.contacts.any (fun c => c.id == newId) = false) :
    create_contact t newId p db =
      (Except.ok (CREATED,
         Contact.mk newId p.first_name p.last_name p.phone t t),
       DB.mk (db.contacts ++
         [Contact.mk newId p.first_name p.last_name p.phone t t])) := by
  unfold create_contact insert_row
  rw [hany]
  exact rfl

theorem create_contact_dup (t newId : Nat) (p : CreateContact) (db : DB)
    (hany : db.contacts.any (fun c => c.id == newId) = true) :
    create_contact t newId p db =
      (Except.error (storage_err (SqlxError.Database
        "duplicate key value violates unique constraint")), db) := by
  unfold create_contact insert_row
  rw [hany]
  exact rfl

/-- C6: every driver failure in list, create and search is surfaced as
HTTP 500 whose body is the raw driver message, unredacted; the update path
maps exactly RowNotFound on its fetch to HTTP 404 and every other failure
to the same raw 500, so the missing update target is the only case mapped
to 404. -/
theorem error_mapping_raw :
    (∀ e : SqlxError, storage_err e =
      (INTERNAL_SERVER_ERROR, e.to_string)) ∧
    (∀ e : SqlxError, e ≠ SqlxError.RowNotFound →
      update_fetch_err e = (INTERNAL_SERVER_ERROR, e.to_string)) ∧
    update_fetch_err SqlxError.RowNotFound =
      (NOT_FOUND, "Contact not found") ∧
    (∀ e : SqlxError, (update_fetch_err e).1 = NOT_FOUND ↔
      e = SqlxError.RowNotFound) ∧
    (∀ e : SqlxError, (storage_err e).1 = INTERNAL_SERVER_ERROR) := by
  refine ⟨fun e => rfl, ?_, rfl, ?_, fun e => rfl⟩
  · intro e he
    cases e with
    | RowNotFound => exact absurd rfl he
    | Database msg => rfl
  · intro e
    cases e with
    | RowNotFound => simp [update_fetch_err]
    | Database msg =>
        simp [update_fetch_err, NOT_FOUND, INTERNAL_SERVER_ERROR]

theorem error_mapping_raw_witness :
    update_fetch_err (SqlxError.Database "boom") =
      (INTERNAL_SERVER_ERROR, (SqlxError.Database "boom").to_string) :=
  error_mapping_raw.2.1 (SqlxError.Database "boom") (by decide)

/-- C7: the data-model invariants survive create and update: on every row
updated_at is at least created_at, ids stay pairwise distinct, and a
create whose generated id already exists is rejected by the unique
constraint with the store unchanged, so a stored id is never reused. -/
theorem invariants_preserved (t freshId id : Nat) (pc : CreateContact)
    (pu : UpdateContact) (db : DB) (hinv : DB.Inv db)
    (hclock : ∀ c ∈ db.contacts, c.updated_at ≤ t) :
    DB.Inv (create_contact t freshId pc db).2 ∧
    DB.Inv (update_contact t id pu db).2 ∧
    (db.contacts.any (fun c => c.id == freshId) = true →
      create_contact t freshId pc db =
        (Except.error (storage_err (SqlxError.Database
          "duplicate key value violates unique constraint")), db)) := by
  refine ⟨?_, ?_, fun hany => create_contact_dup t freshId pc db hany⟩
  · cases hany : db.contacts.any (fun c => c.id == freshId) with
    | true =>
        rw [create_contact_dup t freshId pc db hany]
        exact hinv
    | false =>
        rw [create_contact_fresh t freshId pc db hany]
        have hfresh : ∀ c ∈ db.contacts, c.id ≠ freshId := by
          intro c hc
          have := List.any_eq_false.mp hany c hc
          simpa using this
        constructor
        · intro x hx
          rcases List.mem_append.mp hx with hx | hx
          · exact hinv.1 x hx
          · simp only [List.mem_singleton] at hx
            subst hx
            exact le_refl t
        · rw [List.pairwise_append]
          refine ⟨hinv.2, by simp, ?_⟩
          intro a ha b hb
          simp only [List.mem_singleton] at hb
          subst hb
          exact hfresh a ha
  · cases hfind : db.contacts.find? (fun c => c.id == id) with
    | none =>
        rw [update_contact_none t id pu db hfind]
        exact hinv
    | some c0 =>
        rw [update_contact_found t id pu db c0 hfind]
        have hc0mem : c0 ∈ db.contacts := List.mem_of_find?_eq_some hfind
        have hc0id : c0.id = id := by simpa using List.find?_some hfind
        have hfid : ∀ c ∈ db.contacts,
            (if c.id == id then apply_update pu c0 t else c).id = c.id := by
          intro c hc
          by_cases h : c.id = id
          · simp [h, apply_update, hc0id]
          · simp [h]
        constructor
        · intro x hx
          simp only [List.mem_map] at hx
          obtain ⟨c, hc, rfl⟩ := hx
          by_cases h : c.id = id
          · have e1 : (if c.id == id then apply_update pu c0 t else c) =
                apply_update pu c0 t := by simp [h]
            rw [e1]
            have e2 : (apply_update pu c0 t).created_at = c0.created_at := rfl
            have e3 : (apply_update pu c0 t).updated_at = t := rfl
            rw [e2, e3]
            exact le_trans (hinv.1 c0 hc0mem) (hclock c0 hc0mem)
          · have e1 : (if c.id == id then apply_update pu c0 t else c) = c := by
              simp [h]
            rw [e1]
            exact hinv.1 c hc
        · refine (List.pairwise_map).mpr ?_
          refine List.Pairwise.imp_of_mem ?_ hinv.2
          intro a b ha hb hne
          rw [hfid a ha, hfid b hb]
          exact hne

theorem invariants_preserved_witness :
    DB.Inv (create_contact 9 42 (CreateContact.mk "A" "B" "C")
      (DB.mk [Contact.mk 1 "Ada" "Lovelace" "555-0100" 2 2])).2 :=
  (invariants_preserved 9 42 1 (CreateContact.mk "A" "B" "C")
    (UpdateContact.mk none none none)
    (DB.mk [Contact.mk 1 "Ada" "Lovelace" "555-0100" 2 2])
    ⟨by decide, by decide⟩ (by decide)).1

/-- C8: no operation removes a contact: after dispatching any of the four
installed routes, every contact stored before the request is still stored,
as the row carrying its id (there is no delete route). -/
theorem no_deletion (t freshId : Nat) (req : Request) (db : DB)
    (c : Contact) (hc : c ∈ db.contacts) :
    ∃ c2, c2 ∈ (handle t freshId req db).contacts ∧ c2.id = c.id := by
  cases req with
  | list => exact ⟨c, hc, rfl⟩
  | search q => exact ⟨c, hc, rfl⟩
  | create p =>
      show ∃ c2, c2 ∈ (create_contact t freshId p db).2.contacts ∧ c2.id = c.id
      cases hany : db.contacts.any (fun x => x.id == freshId) with
      | true =>
          rw [create_contact_dup t freshId p db hany]
          exact ⟨c, hc, rfl⟩
      | false =>
          rw [create_contact_fresh t freshId p db hany]
          exact ⟨c, List.mem_append.mpr (Or.inl hc), rfl⟩
  | update idText p =>
      show ∃ c2, c2 ∈ (put_contact_route t idText p db).2.contacts ∧ c2.id = c.id
      unfold put_contact_route
      cases hparse : parse_uuid idText with
      | none => exact ⟨c, hc, rfl⟩
      | some id =>
          show ∃ c2, c2 ∈ (update_contact t id p db).2.contacts ∧ c2.id = c.id
          cases hfind : db.contacts.find? (fun x => x.id == id) with
          | none =>
              rw [update_contact_none t id p db hfind]
              exact ⟨c, hc, rfl⟩
          | some c0 =>
              rw [update_contact_found t id p db c0 hfind]
              have hc0id : c0.id = id := by simpa using List.find?_some hfind
              refine ⟨if c.id == id then apply_update p c0 t else c,
                List.mem_map.mpr ⟨c, hc, rfl⟩, ?_⟩
              by_cases h : c.id = id
              · simp [h, apply_update, hc0id]
              · simp [h]

theorem no_deletion_witness :
    ∃ c2, c2 ∈ (handle 9 42
        (Request.update "nope" (UpdateContact.mk none none none))
        (DB.mk [Contact.mk 1 "Ada" "Lovelace" "555-0100" 2 2])).contacts ∧
      c2.id = (Contact.mk 1 "Ada" "Lovelace" "555-0100" 2 2).id :=
  no_deletion 9 42 (Request.update "nope" (UpdateContact.mk none none none))
    (DB.mk [Contact.mk 1 "Ada" "Lovelace" "555-0100" 2 2])
    (Contact.mk 1 "Ada" "Lovelace" "555-0100" 2 2) (by decide)

/-- C9: an update whose body supplies none of the three fields still
executes the write: the stored fields keep their prior values, updated_at
becomes the current server time, and the handler answers 200 with the
row. -/
theorem update_contact_empty_payload (t id : Nat) (db : DB) (c0 : Contact)
    (hfind : db.contacts.find? (fun c => c.id == id) = some c0) :
    update_contact t id (UpdateContact.mk none none none) db =
      (Except.ok (OK, { c0 with updated_at := t }),
       DB.mk (db.contacts.map
         (fun c => if c.id == id then { c0 with updated_at := t } else c))) ∧
    ({ c0 with updated_at := t }).first_name = c0.first_name ∧
    ({ c0 with updated_at := t }).last_name = c0.last_name ∧
    ({ c0 with updated_at := t }).phone = c0.phone ∧
    ({ c0 with updated_at := t }).created_at = c0.created_at ∧
    ({ c0 with updated_at := t }).updated_at = t := by
  refine ⟨?_, rfl, rfl, rfl, rfl, rfl⟩
  exact update_contact_found t id (UpdateContact.mk none none none) db c0 hfind

theorem update_contact_empty_payload_witness :
    update_contact 9 1 (UpdateContact.mk none none none)
        (DB.mk [Contact.mk 1 "Ada" "Lovelace" "555-0100" 2 2]) =
      (Except.ok (OK,
         { Contact.mk 1 "Ada" "Lovelace" "555-0100" 2 2 with updated_at := 9 }),
       DB.mk ((DB.mk [Contact.mk 1 "Ada" "Lovelace" "555-0100" 2 2]).contacts.map
         (fun c => if c.id == 1 then
            { Contact.mk 1 "Ada" "Lovelace" "555-0100" 2 2 with updated_at := 9 }
          else c))) :=
  (update_contact_empty_payload 9 1
    (DB.mk [Contact.mk 1 "Ada" "Lovelace" "555-0100" 2 2])
    (Contact.mk 1 "Ada" "Lovelace" "555-0100" 2 2) (by rfl)).1

/-- C10: a PUT whose path id text is not a syntactically valid UUID is
rejected by path deserialization with a client error, HTTP 400, before the
handler body runs: the store is unchanged and the status is neither the
404 of a missing target nor the 500 of a storage failure. -/
theorem put_contact_route_invalid_uuid (t : Nat) (s : String)
    (p : UpdateContact) (db : DB) (hbad : parse_uuid s = none) :
    put_contact_route t s p db =
      (Except.error (BAD_REQUEST, "Invalid URL"), db) ∧
    BAD_REQUEST ≠ NOT_FOUND ∧ BAD_REQUEST ≠ INTERNAL_SERVER_ERROR := by
  refine ⟨?_, by decide, by decide⟩
  unfold put_contact_route
  rw [hbad]

theorem put_contact_route_invalid_uuid_witness :
    put_contact_route 9 "oops" (UpdateContact.mk none none none)
        (DB.mk [Contact.mk 1 "Ada" "Lovelace" "555-0100" 2 2]) =
      (Except.error (BAD_REQUEST, "Invalid URL"),
       DB.mk [Contact.mk 1 "Ada" "Lovelace" "555-0100" 2 2]) :=
  (put_contact_route_invalid_uuid 9 "oops" (UpdateContact.mk none none none)
    (DB.mk [Contact.mk 1 "Ada" "Lovelace" "555-0100" 2 2]) (by decide)).1
